import Mathlib

/-!
# Verification of the football-gossip-bot scoring / dedup / selection pipeline

Shallow embedding of the Python sources under `src/` into Lean 4.

Python strings are sequences of Unicode code points; we embed them as
`List Char` (a Lean `Char` is one Unicode scalar value, matching Python's
`len`).  Python's substring test `needle in hay` is embedded as
`strContains hay needle`.  Machine integers are Python arbitrary-precision
ints, embedded as `Int`.
-/

namespace FootballGossip

/-- Embedding of Python `needle in hay` (substring containment) on strings.
`strContains hay needle = true` iff `needle` occurs contiguously in `hay`
(the empty needle always occurs). -/
def strContains : List Char → List Char → Bool
  | [], needle => needle.isEmpty
  | c :: t, needle => needle.isPrefixOf (c :: t) || strContains t needle

/-- Embedding of Python `str.lower` at the level of a single code point,
covering the code-point repertoire appearing in this repository's
configured keyword tables (ASCII `A`–`Z` plus the Turkish uppercase letters
`Ç Ğ İ Ö Ş Ü`; Python lowers `İ` (U+0130) to the two code points
`i` + U+0307). All other code points are unchanged, as in Python for the
inputs this program compares. -/
def pyLowerChar (c : Char) : List Char :=
  if 'A' ≤ c ∧ c ≤ 'Z' then [Char.ofNat (c.toNat + 32)]
  else if c = 'Ç' then ['ç']
  else if c = 'Ğ' then ['ğ']
  else if c = 'İ' then ['i', '̇']
  else if c = 'Ö' then ['ö']
  else if c = 'Ş' then ['ş']
  else if c = 'Ü' then ['ü']
  else [c]

/-- Embedding of Python `str.lower` on a whole string. -/
def lowerStr (s : List Char) : List Char :=
  s.flatMap pyLowerChar

/-- Embedding of Python `random.choice(l)`: the random source is made
explicit as a natural-number index `r`; the chosen element is `l[r % len l]`.
As `r` ranges over all naturals the choice ranges uniformly over `l`. -/
def chooseFrom {α : Type} (dflt : α) (l : List α) (r : Nat) : α :=
  l.getD (r % l.length) dflt

/-! ## DramaScorer (`src/drama_scorer.py`) -/

/-- A follow/unfollow change record, as consumed by
`DramaScorer.calculate_score` (`src/drama_scorer.py`, lines 65-70):
`change['type']`, `change['target_name']`, `change['target_handle']`,
`change.get('target_followers', 0)`, `change['athlete']`. -/
structure Change where
  ctype : List Char
  athleteName : List Char
  athleteHandle : List Char
  targetName : List Char
  targetHandle : List Char
  targetFollowers : Int
  timestamp : Int
deriving DecidableEq, Repr, Inhabited

/-- Athlete record; `DramaScorer._is_rivalry` reads `athlete.get('team', '')`. -/
structure Athlete where
  name : List Char
  team : List Char
deriving DecidableEq, Repr, Inhabited

/-- `DramaScorer.rivalries` (`src/drama_scorer.py`, lines 16-30). -/
def rivalries : List (List Char × List (List Char)) :=
  [ ("Real Madrid".data, ["Barcelona".data, "Atletico Madrid".data]),
    ("Barcelona".data, ["Real Madrid".data]),
    ("Manchester United".data, ["Manchester City".data, "Liverpool".data]),
    ("Manchester City".data, ["Manchester United".data, "Liverpool".data]),
    ("Liverpool".data, ["Manchester United".data, "Manchester City".data, "Everton".data]),
    ("Arsenal".data, ["Tottenham".data]),
    ("Tottenham".data, ["Arsenal".data]),
    ("AC Milan".data, ["Inter Milan".data]),
    ("Inter Milan".data, ["AC Milan".data]),
    ("Juventus".data, ["Inter Milan".data, "AC Milan".data]),
    ("Paris Saint-Germain".data, ["Marseille".data]),
    ("Bayern Munich".data, ["Borussia Dortmund".data]),
    ("Borussia Dortmund".data, ["Bayern Munich".data]) ]

/-- `DramaScorer.superstar_keywords` (`src/drama_scorer.py`, lines 33-37). -/
def superstarKeywords : List (List Char) :=
  [ "Ronaldo".data, "Messi".data, "Neymar".data, "Mbappé".data, "Haaland".data,
    "Salah".data, "Kane".data, "Benzema".data, "Lewandowski".data, "De Bruyne".data,
    "Vinicius".data, "Bellingham".data, "Pele".data, "Maradona".data ]

/-- `DramaScorer.controversial_keywords` (`src/drama_scorer.py`, lines 40-43). -/
def controversialKeywords : List (List Char) :=
  [ "Piers Morgan".data, "Joey Barton".data, "Zlatan".data, "Mourinho".data,
    "Roy Keane".data, "Cristiano".data, "Tebas".data, "FIFA".data, "UEFA".data ]

/-- `DramaScorer._is_superstar`: any keyword with
`keyword.lower() in name.lower()`. -/
def isSuperstar (name : List Char) : Bool :=
  superstarKeywords.any fun kw => strContains (lowerStr name) (lowerStr kw)

/-- `DramaScorer._is_controversial`. -/
def isControversial (name : List Char) : Bool :=
  controversialKeywords.any fun kw => strContains (lowerStr name) (lowerStr kw)

/-- `DramaScorer._is_rivalry`: exact dictionary lookup of the athlete's team
in `rivalries`, then `rival_team.lower() in target_name.lower()` for any
listed rival. -/
def isRivalry (athlete : Athlete) (targetName : List Char) : Bool :=
  match rivalries.find? (fun kv => kv.1 == athlete.team) with
  | some kv => kv.2.any fun rival => strContains (lowerStr targetName) (lowerStr rival)
  | none => false

/-- The popularity-tier term of `DramaScorer.calculate_score`
(`src/drama_scorer.py`, lines 78-86): strict `>` comparisons, first match
wins. -/
def popularityBonus (followers : Int) : Int :=
  if followers > 10000000 then 25
  else if followers > 1000000 then 15
  else if followers > 100000 then 10
  else 5

/-- `DramaScorer.calculate_score` (`src/drama_scorer.py`, lines 45-114):
the additive accumulation of all bonus terms followed by `min(score, 100)`. -/
def calculateScore (change : Change) (athlete : Athlete) : Int :=
  min
    ((if change.ctype = "unfollow".data then (40 : Int) else 20)
      + popularityBonus change.targetFollowers
      + (if isSuperstar change.athleteName then 15 else 0)
      + (if isSuperstar change.targetName then 15 else 0)
      + (if isRivalry athlete change.targetName then 40 else 0)
      + (if isControversial change.targetName then 30 else 0)
      + (if change.ctype = "unfollow".data ∧ isRivalry athlete change.targetName then 20 else 0))
    100

/-- `DramaScorer.get_explanation` (`src/drama_scorer.py`, lines 157-168). -/
def getExplanation (score : Int) : String :=
  if score ≥ 80 then "🔥🔥🔥 MEGA DRAMA - This is going viral!"
  else if score ≥ 60 then "🔥🔥 HIGH DRAMA - Great tweet potential"
  else if score ≥ 40 then "🔥 MEDIUM DRAMA - Worth tweeting"
  else if score ≥ 20 then "⚡ LOW DRAMA - Mildly interesting"
  else "😴 NO DRAMA - Skip this one"

theorem popularityBonus_nonneg (f : Int) : 0 ≤ popularityBonus f := by
  unfold popularityBonus
  split_ifs <;> omega

theorem popularityBonus_ge_five (f : Int) : 5 ≤ popularityBonus f := by
  unfold popularityBonus
  split_ifs <;> omega

theorem popularityBonus_le (f : Int) : popularityBonus f ≤ 25 := by
  unfold popularityBonus
  split_ifs <;> omega

theorem calculateScore_ge_25 (c : Change) (a : Athlete) :
    25 ≤ calculateScore c a := by
  unfold calculateScore
  have h5 := popularityBonus_ge_five c.targetFollowers
  rw [le_min_iff]
  constructor
  · split_ifs <;> omega
  · omega

/-- C1: `DramaScorer.calculate_score` always returns an integer in `[0, 100]`:
the sum of the bonus terms is clamped above by `min(·, 100)`, every term is
non-negative, and hence no lower clamp is needed. -/
theorem calculate_score_in_range (c : Change) (a : Athlete) :
    0 ≤ calculateScore c a ∧ calculateScore c a ≤ 100 := by
  refine ⟨le_trans (by omega) (calculateScore_ge_25 c a), ?_⟩
  unfold calculateScore
  exact min_le_right _ _

/-- C10: `DramaScorer.calculate_score` always returns at least 25 (the base
term is at least 20 and the popularity tier at least 5), so the score lies in
`[25, 100]` and `get_explanation` can never return the lowest ("no drama")
tier for a scored event. -/
theorem score_at_least_25_no_drama_unreachable (c : Change) (a : Athlete) :
    25 ≤ calculateScore c a ∧ calculateScore c a ≤ 100 ∧
      getExplanation (calculateScore c a) ≠ "😴 NO DRAMA - Skip this one" := by
  have h25 := calculateScore_ge_25 c a
  refine ⟨h25, (calculate_score_in_range c a).2, ?_⟩
  unfold getExplanation
  split_ifs with h1 h2 h3 h4 <;> first | decide | omega

/-- C4 counterexample: under the strict `>` comparisons of
`DramaScorer.calculate_score` the boundary values do NOT belong to the
higher tier: each of `100000`, `1000000`, `10000000` receives the lower
tier's bonus (its successor receives the higher one). -/
theorem popularity_boundary_lower_tier :
    popularityBonus 100000 = 5 ∧ popularityBonus 100001 = 10 ∧
    popularityBonus 1000000 = 10 ∧ popularityBonus 1000001 = 15 ∧
    popularityBonus 10000000 = 15 ∧ popularityBonus 10000001 = 25 ∧
    ¬ popularityBonus 100000 = 10 := by
  refine ⟨?_, ?_, ?_, ?_, ?_, ?_, ?_⟩ <;> norm_num [popularityBonus]

/-- C4 amended: the popularity-tier bonus is a non-decreasing step function
of `p` taking exactly the four values `5, 10, 15, 25` (each attained), and
the boundary values `100000`, `1000000`, `10000000` belong to the LOWER tier
because the comparisons are strict `>` (not `>=`). -/
theorem popularity_tier_monotone_values :
    (∀ p q : Int, p ≤ q → popularityBonus p ≤ popularityBonus q) ∧
    (∀ p : Int, popularityBonus p = 5 ∨ popularityBonus p = 10 ∨
      popularityBonus p = 15 ∨ popularityBonus p = 25) ∧
    popularityBonus 100000 = 5 ∧ popularityBonus 1000000 = 10 ∧
    popularityBonus 10000000 = 15 ∧ popularityBonus 10000001 = 25 := by
  refine ⟨?_, ?_, ?_, ?_, ?_, ?_⟩
  · intro p q h
    unfold popularityBonus
    split_ifs <;> omega
  · intro p
    unfold popularityBonus
    split_ifs <;> simp
  all_goals norm_num [popularityBonus]

theorem popularity_tier_monotone_values_witness :
    popularityBonus 3 ≤ popularityBonus 5 ∧ popularityBonus 100000 = 5 :=
  ⟨popularity_tier_monotone_values.1 3 5 (by norm_num),
   popularity_tier_monotone_values.2.2.1⟩

/-! ## ChangeDetector (`src/tracker.py`, `FollowTracker.check_athlete`) -/

/-- The set-difference core of `FollowTracker.check_athlete`
(`src/tracker.py`, lines 84-121): `previous_following` is read from the
cache (empty on first observation); if it is empty (`if previous_following:`
is falsy) no changes are emitted at all; otherwise
`new_follows = current - previous` and `unfollows = previous - current`.
Returns `(followed, unfollowed)`. -/
def detect {α : Type} [DecidableEq α] (previous current : Finset α) :
    Finset α × Finset α :=
  if previous = ∅ then (∅, ∅)
  else (current \ previous, previous \ current)

/-- C5 counterexample: swapping the two arguments of `detect` does NOT
always swap the two result sets, because an empty `previous` suppresses all
change detection: `detect ∅ {"a"} = (∅, ∅)` but `detect {"a"} ∅ = (∅, {"a"})`,
which is not the swap of `(∅, ∅)`. -/
theorem detect_swap_fails_on_empty :
    detect (∅ : Finset String) {"a"} = (∅, ∅) ∧
    detect ({"a"} : Finset String) ∅ = (∅, {"a"}) ∧
    ¬ detect ({"a"} : Finset String) ∅ =
        ((detect (∅ : Finset String) {"a"}).2, (detect (∅ : Finset String) {"a"}).1) := by
  refine ⟨by decide, by decide, by decide⟩

/-- C5 amended: `followed = current − previous` and
`unfollowed = previous − current`; an empty previous set yields two empty
result sets for any current set; `detect(S, S) = (∅, ∅)`; and swapping the
two arguments swaps the two result sets PROVIDED both arguments are
non-empty (the cold-start guard for an empty previous set breaks the swap
symmetry otherwise). -/
theorem detect_properties {α : Type} [DecidableEq α] :
    (∀ curr : Finset α, detect (∅ : Finset α) curr = (∅, ∅)) ∧
    (∀ S : Finset α, detect S S = (∅, ∅)) ∧
    (∀ prev curr : Finset α, prev ≠ ∅ → curr ≠ ∅ →
      detect curr prev = ((detect prev curr).2, (detect prev curr).1)) := by
  refine ⟨?_, ?_, ?_⟩
  · intro curr
    simp [detect]
  · intro S
    by_cases h : S = (∅ : Finset α) <;> simp [detect, h]
  · intro prev curr hp hc
    simp [detect, hp, hc]

theorem detect_properties_witness :
    detect ({"b"} : Finset String) {"a"} =
      ((detect ({"a"} : Finset String) {"b"}).2,
       (detect ({"a"} : Finset String) {"b"}).1) :=
  detect_properties.2.2 {"a"} {"b"} (by decide) (by decide)

/-! ## Renderer 1: TweetGenerator (`src/tweet_generator.py`) -/

/-- The shared 280-character enforcement of `TweetGenerator.generate`
(lines 67-68) and `NewsToTweetConverter.convert_to_tweet` (lines 161-162):
`if len(tweet) > 280: tweet = tweet[:277] + "..."`. -/
def enforce280 (t : List Char) : List Char :=
  if t.length > 280 then t.take 277 ++ "...".data else t

/-- `TweetGenerator._generate_unfollow_tweet` template pool (lines 74-81). -/
def unfollowTemplates (athlete target handle : List Char) : List (List Char) :=
  [ "🚨 JUST IN: ".data ++ athlete ++ " just UNFOLLOWED ".data ++ target ++ "!\n\nWhat happened? 👀🍿".data,
    "⚡ DRAMA ALERT: ".data ++ athlete ++ " has unfollowed ".data ++ target ++ " (".data ++ handle ++ ")\n\nTrouble in paradise? 🤔".data,
    "👀 ".data ++ athlete ++ " quietly unfollowed ".data ++ target ++ "\n\nThe plot thickens... 🍿".data,
    "🔥 BREAKING: ".data ++ athlete ++ " is no longer following ".data ++ target ++ "\n\nSomething went down! 👀".data,
    "💥 ".data ++ athlete ++ " unfollowed ".data ++ target ++ "!\n\nWho else noticed this? 🕵️".data,
    "🚨 ".data ++ athlete ++ " just hit the unfollow button on ".data ++ target ++ "\n\nDrama incoming! 🍿👀".data ]

/-- High-drama unfollow templates (`score > 70`, lines 84-88). -/
def unfollowHighTemplates (athlete target handle : List Char) : List (List Char) :=
  [ "🚨🚨🚨 MAJOR DRAMA: ".data ++ athlete ++ " UNFOLLOWED ".data ++ target ++ "!\n\nThis is HUGE! 🔥👀🍿".data,
    "💣 BOMBSHELL: ".data ++ athlete ++ " just unfollowed ".data ++ target ++ " (".data ++ handle ++ ")\n\nFootball Twitter is NOT ready for this! 🤯".data ]

/-- `TweetGenerator._generate_follow_tweet` template pool (lines 94-100). -/
def followTemplates (athlete target handle : List Char) : List (List Char) :=
  [ "⚡ ".data ++ athlete ++ " just followed ".data ++ target ++ "!\n\nInteresting... 👀".data,
    "👀 ".data ++ athlete ++ " started following ".data ++ target ++ " (".data ++ handle ++ ")\n\nNew bromance incoming? 🤝".data,
    "🔔 ".data ++ athlete ++ " is now following ".data ++ target ++ "\n\nTransfer hint? 🤔".data,
    "✨ ".data ++ athlete ++ " followed ".data ++ target ++ "!\n\nWhat does this mean? 👀".data,
    "📱 ".data ++ athlete ++ " just hit that follow button on ".data ++ target ++ "\n\nSomething brewing? ☕".data ]

/-- High-profile follow templates (`score > 60`, lines 103-107). -/
def followHighTemplates (athlete target handle : List Char) : List (List Char) :=
  [ "🚨 ".data ++ athlete ++ " just followed ".data ++ target ++ "!\n\nThe GOATs recognizing GOATs 🐐🤝🐐".data,
    "⚡ HUGE: ".data ++ athlete ++ " started following ".data ++ target ++ " (".data ++ handle ++ ")\n\nFootball fans, pay attention! 👀".data ]

/-- `TweetGenerator._add_hashtags` athlete tag table (lines 116-123);
Python dict iteration preserves the insertion order shown. -/
def athleteTags : List (List Char × List (List Char)) :=
  [ ("Cristiano Ronaldo".data, ["CR7".data, "Ronaldo".data]),
    ("Lionel Messi".data, ["Messi".data, "LeoMessi".data]),
    ("Kylian Mbappé".data, ["Mbappe".data, "KylianMbappe".data]),
    ("Erling Haaland".data, ["Haaland".data]),
    ("Neymar".data, ["NeymarJr".data, "Neymar".data]),
    ("Mohamed Salah".data, ["Salah".data, "MoSalah".data]) ]

/-- `TweetGenerator._add_hashtags` (lines 111-140): the first table key that
is a substring of the athlete name contributes one tag; `#FootballTwitter`
is always appended; at most two hashtags are joined with spaces and added
only when the result still fits in 280. The `target` parameter is unused in
the source as well. -/
def addHashtags (tweet athlete _targetName : List Char) : List Char :=
  let base :=
    match athleteTags.find? (fun kv => strContains athlete kv.1) with
    | some kv => (kv.2.take 1).map (fun tag => '#' :: tag)
    | none => []
  let hashtags := base ++ ["#FootballTwitter".data]
  let hstr := List.intercalate " ".data (hashtags.take 2)
  if tweet.length + hstr.length + 2 ≤ 280 then tweet ++ "\n\n".data ++ hstr
  else tweet

/-- `TweetGenerator.generate` (lines 37-70): choose the template pool from
the change type and drama score, fill it, add hashtags, then enforce the
280-character cap. `dramaScore` is `change.get('drama_score', 0)` (stored
into the change dict by `check_and_tweet` before rendering); the random
template choice is made explicit through the index `tidx`. -/
def generate (c : Change) (dramaScore : Int) (tidx : Nat) : List Char :=
  let tweet :=
    if c.ctype = "unfollow".data then
      chooseFrom []
        (if dramaScore > 70 then
          unfollowHighTemplates c.athleteName c.targetName c.targetHandle
        else unfollowTemplates c.athleteName c.targetName c.targetHandle) tidx
    else
      chooseFrom []
        (if dramaScore > 60 then
          followHighTemplates c.athleteName c.targetName c.targetHandle
        else followTemplates c.athleteName c.targetName c.targetHandle) tidx
  enforce280 (addHashtags tweet c.athleteName c.targetName)

theorem enforce280_le (t : List Char) : (enforce280 t).length ≤ 280 := by
  unfold enforce280
  split_ifs with h
  · have h1 : (t.take 277).length = 277 := by rw [List.length_take]; omega
    have h2 : ("...".data : List Char).length = 3 := rfl
    rw [List.length_append, h1, h2]
  · omega

/-! ## Renderer 2: NewsToTweetConverter (`src/news_converter.py`) -/

/-- An RSS article as consumed by `convert_to_tweet`: `title` and `summary`
(the other feed fields are not read by the converter). -/
structure Article where
  title : List Char
  summary : List Char
deriving DecidableEq, Repr, Inhabited

/-- `NewsToTweetConverter.hooks` (lines 42-50). -/
def newsHooks : List (List Char) :=
  [ "This is absolutely massive! 🔥".data,
    "Football Twitter is going to explode! 🤯".data,
    "Nobody saw this coming! 😱".data,
    "What a turn of events! 🌪️".data,
    "The drama never stops in football! 🍿".data,
    "This could change everything! ⚡".data,
    "Incredible scenes! 🎭".data ]

/-- `NewsToTweetConverter.reactions` (lines 52-60). -/
def newsReactions : List (List Char) :=
  [ "What are your thoughts on this? 🤔".data,
    "Drop your reaction below! 👇".data,
    "Who predicted this? 🙋‍♂️".data,
    "This changes the whole landscape! ⚡".data,
    "Absolute scenes! 🔥".data,
    "Is this really happening? 😮".data,
    "Game changer alert! 🚨".data ]

/-- `NewsToTweetConverter.questions` (lines 62-69). -/
def newsQuestions : List (List Char) :=
  [ "What do you make of this? 💭".data,
    "Good move or disaster? 🤔".data,
    "Will this actually happen? 👀".data,
    "Your predictions below! 🔮".data,
    "Who's involved next? 👇".data,
    "Rate this on a scale of 1-10! 📊".data ]

/-- `NewsToTweetConverter.contexts` (lines 72-78). -/
def newsContexts : List (List Char) :=
  [ "Sources close to the club confirm this developing story.".data,
    "This comes as a major surprise to fans and pundits alike.".data,
    "Breaking developments in the last hour suggest this is real.".data,
    "Multiple reliable sources are now reporting this.".data,
    "This has been rumored for weeks, now it's confirmed!".data ]

/-- `NewsToTweetConverter.details` (lines 80-85). -/
def newsDetails : List (List Char) :=
  [ "According to reports from reliable insiders.".data,
    "This could reshape the entire season.".data,
    "Fans are already reacting massively online.".data,
    "The announcement has sent shockwaves through the sport.".data ]

/-- Categorisation keyword lists (lines 88-90). -/
def transferKeywords : List (List Char) :=
  [ "transfer".data, "deal".data, "bid".data, "sign".data, "contract".data,
    "move".data, "agree".data ]

def matchKeywords : List (List Char) :=
  [ "win".data, "lose".data, "goal".data, "score".data, "match".data,
    "game".data, "victory".data, "defeat".data ]

def dramaKeywords : List (List Char) :=
  [ "sack".data, "fire".data, "leave".data, "quit".data, "row".data,
    "clash".data, "crisis".data, "emergency".data ]

/-- Scan for the closing delimiter of a lazy regex bracket match; Python
`.` does not match a newline, so the search fails at a newline. Returns the
remainder after the delimiter on success. -/
def findCloseDelim (cl : Char) : List Char → Option (List Char)
  | [] => none
  | c :: t => if c = cl then some t else if c = '\n' then none else findCloseDelim cl t

theorem findCloseDelim_length {cl : Char} :
    ∀ {l l' : List Char}, findCloseDelim cl l = some l' → l'.length < l.length := by
  intro l
  induction l with
  | nil => intro l' h; simp [findCloseDelim] at h
  | cons c t ih =>
    intro l' h
    unfold findCloseDelim at h
    split_ifs at h with h1 h2
    · cases h
      simp
    · exact Nat.lt_trans (ih h) (by simp)

/-- Embedding of `re.sub(r'\[.*?\]', '', title)` used by `_clean_title`
(lines 169-170): repeatedly delete the shortest single-line bracketed
segment, leaving an unclosed opening delimiter in place. -/
def removeBracketed (op cl : Char) : List Char → List Char
  | [] => []
  | c :: rest =>
    if c = op then
      match h : findCloseDelim cl rest with
      | some rest' => removeBracketed op cl rest'
      | none => c :: removeBracketed op cl rest
    else c :: removeBracketed op cl rest
termination_by l => l.length
decreasing_by
  · exact Nat.lt_trans (findCloseDelim_length h) (by simp)
  · simp
  · simp

/-- Embedding of Python `s.replace(pat, '')` (non-overlapping, left to
right) used for the prefix removal in `_clean_title` (lines 173-175). -/
def replaceAll (pat : List Char) : List Char → List Char
  | [] => []
  | c :: t =>
    if h : pat ≠ [] ∧ pat.isPrefixOf (c :: t) then
      replaceAll pat (List.drop pat.length (c :: t))
    else c :: replaceAll pat t
termination_by l => l.length
decreasing_by
  · have hp : 0 < pat.length := List.length_pos.mpr h.1
    rw [List.length_drop]
    simp only [List.length_cons]
    omega
  · simp

/-- Embedding of Python `str.strip()` (whitespace at both ends). -/
def pyStrip (s : List Char) : List Char :=
  ((s.dropWhile Char.isWhitespace).reverse.dropWhile Char.isWhitespace).reverse

/-- `NewsToTweetConverter._clean_title` (lines 166-177). -/
def cleanTitle (title : List Char) : List Char :=
  pyStrip
    (replaceAll "EXCLUSIVE:".data
      (replaceAll "UPDATE:".data
        (replaceAll "BREAKING:".data
          (replaceAll "LIVE:".data
            (removeBracketed '(' ')' (removeBracketed '[' ']' title))))))

/-- `NewsToTweetConverter._categorize_news` (lines 179-195). -/
def categorizeNews (title summary : List Char) : List Char :=
  let text := lowerStr (title ++ " ".data ++ summary)
  if transferKeywords.any (fun kw => strContains text kw) then "transfer".data
  else if matchKeywords.any (fun kw => strContains text kw) then "match".data
  else if dramaKeywords.any (fun kw => strContains text kw) then "drama".data
  else "general".data

/-- `NewsToTweetConverter._extract_teams` team table (lines 284-288). -/
def knownTeams : List (List Char) :=
  [ "Manchester United".data, "Manchester City".data, "Liverpool".data, "Chelsea".data,
    "Arsenal".data, "Tottenham".data, "Real Madrid".data, "Barcelona".data, "Bayern Munich".data,
    "PSG".data, "Juventus".data, "AC Milan".data, "Inter Milan".data, "Atletico Madrid".data ]

/-- `NewsToTweetConverter._extract_teams` (lines 281-295). -/
def extractTeams (text : List Char) : List (List Char) :=
  knownTeams.filter (fun team => strContains (lowerStr text) (lowerStr team))

/-- Star players scanned by `_add_smart_hashtags` (line 242). -/
def starPlayers : List (List Char) :=
  [ "Ronaldo".data, "Messi".data, "Haaland".data, "Mbappe".data, "Neymar".data,
    "Salah".data, "Kane".data ]

/-- `NewsToTweetConverter._add_smart_hashtags` (lines 221-267). -/
def addSmartHashtags (tweet title summary category : List Char) : List Char :=
  let text := lowerStr (title ++ " ".data ++ summary)
  let teams := extractTeams title
  let catTags :=
    if category = "transfer".data then
      ["#TransferNews".data] ++
        (if strContains text "rumor".data || strContains text "rumour".data then
          ["#TransferRumors".data] else [])
    else if category = "match".data then
      ["#MatchDay".data] ++
        (if strContains text "goal".data || strContains text "score".data then
          ["#Goals".data] else [])
    else if category = "drama".data then ["#FootballDrama".data]
    else []
  let withPlayer := catTags ++
    (match starPlayers.find? (fun p => strContains text (lowerStr p)) with
     | some p => ['#' :: p]
     | none => [])
  let withTeam := withPlayer ++
    (match teams.head? with
     | some team =>
        let tag := '#' :: team.filter (fun ch => ch ≠ ' ')
        if tag.length < 20 then [tag] else []
     | none => [])
  let hashtags := if withTeam = [] then ["#Football".data] else withTeam
  let selected := hashtags.take 3
  let hstr := List.intercalate " ".data selected
  if tweet.length + hstr.length + 2 ≤ 280 then tweet ++ "\n\n".data ++ hstr
  else if tweet.length + (selected.headD []).length + 2 ≤ 280 then
    tweet ++ "\n\n".data ++ selected.headD []
  else tweet

/-- `NewsToTweetConverter._shorten_tweet` (lines 269-279); `sidx` is the
index of the fresh `random.choice` made there. -/
def shortenTweet (title category : List Char) (sidx : Nat) : List Char :=
  if category = "transfer".data then
    "🚨 ".data ++ title ++ "\n\n".data ++ chooseFrom [] newsQuestions sidx
  else if category = "match".data then
    "⚽ ".data ++ title ++ "\n\n".data ++ chooseFrom [] newsReactions sidx
  else
    "🔥 ".data ++ title ++ "\n\n".data ++ chooseFrom [] newsHooks sidx

/-- The independent `random.choice` indices drawn by `convert_to_tweet`:
one per template pool access and per `format` keyword argument
(lines 112-150), plus the template index, the `extra_context` choice and
the `_shorten_tweet` choice. -/
structure NewsRandom where
  tmpl : Nat
  extraCtx : Nat
  hook : Nat
  reaction : Nat
  question : Nat
  commentary : Nat
  drama : Nat
  speculation : Nat
  excitement : Nat
  celebration : Nat
  shock : Nat
  detail : Nat
  insight : Nat
  opinion : Nat
  extra : Nat
  background : Nat
  rumor : Nat
  details : Nat
  status : Nat
  figures : Nat
  highlights : Nat
  stats : Nat
  summaryIdx : Nat
  short : Nat
deriving Repr, Inhabited

/-- `NewsToTweetConverter.breaking_templates` (lines 18-25), filled as by
`template.format(...)`. -/
def breakingTemplatesFilled (title context hook detail reaction insight commentary
    opinion question extra drama background : List Char) : List (List Char) :=
  [ "🚨 BREAKING NEWS!\n\n".data ++ title ++ "\n\n".data ++ context ++ "\n\n".data ++ hook,
    "⚡ JUST IN: ".data ++ title ++ "\n\n".data ++ detail ++ "\n\n".data ++ reaction,
    "🔥 HUGE DEVELOPMENT!\n\n".data ++ title ++ "\n\n".data ++ insight ++ "\n\n".data ++ commentary,
    "👀 You won't believe this...\n\n".data ++ title ++ "\n\n".data ++ opinion ++ "\n\n".data ++ question,
    "💥 MASSIVE: ".data ++ title ++ "\n\n".data ++ extra ++ "\n\n".data ++ drama,
    "📰 LATEST: ".data ++ title ++ "\n\n".data ++ background ++ "\n\n".data ++ hook ]

/-- `NewsToTweetConverter.transfer_templates` (lines 27-32), filled. -/
def transferTemplatesFilled (title rumor speculation details question status
    excitement figures : List Char) : List (List Char) :=
  [ "🚨 TRANSFER ALERT!\n\n".data ++ title ++ "\n\n".data ++ rumor ++ "\n\n".data ++ speculation,
    "💰 BIG MONEY MOVE?\n\n".data ++ title ++ "\n\n".data ++ details ++ "\n\n".data ++ question,
    "✈️ HERE WE GO? ".data ++ title ++ "\n\n".data ++ status ++ "\n\n".data ++ excitement,
    "📝 CONTRACT TALK: ".data ++ title ++ "\n\n".data ++ figures ++ "\n\n".data ++ question ]

/-- `NewsToTweetConverter.match_templates` (lines 34-39), filled. -/
def matchTemplatesFilled (title highlights reaction stats celebration context
    shock summary : List Char) : List (List Char) :=
  [ "⚽ MATCH REPORT!\n\n".data ++ title ++ "\n\n".data ++ highlights ++ "\n\n".data ++ reaction,
    "🏆 WHAT A GAME!\n\n".data ++ title ++ "\n\n".data ++ stats ++ "\n\n".data ++ celebration,
    "😱 UNBELIEVABLE!\n\n".data ++ title ++ "\n\n".data ++ context ++ "\n\n".data ++ shock,
    "🎯 FINAL SCORE: ".data ++ title ++ "\n\n".data ++ summary ++ "\n\n".data ++ reaction ]

/-- `NewsToTweetConverter.convert_to_tweet` (lines 92-164): clean the
title, categorise, pick a template pool and the `extra_context` pool by
category, fill the chosen template with independently chosen fragments, add
smart hashtags, fall back to the short form if over 280, and finally
hard-truncate to 277 plus an ellipsis. -/
def convertNewsToTweet (article : Article) (r : NewsRandom) : List Char :=
  let title := cleanTitle article.title
  let category := categorizeNews title article.summary
  let extraContext :=
    if category = "transfer".data then chooseFrom [] newsContexts r.extraCtx
    else if category = "match".data then chooseFrom [] newsDetails r.extraCtx
    else if category = "drama".data then chooseFrom [] newsContexts r.extraCtx
    else chooseFrom [] newsDetails r.extraCtx
  let filled :=
    if category = "transfer".data then
      transferTemplatesFilled title
        (chooseFrom [] newsContexts r.rumor)
        (chooseFrom [] newsQuestions r.speculation)
        (chooseFrom [] newsDetails r.details)
        (chooseFrom [] newsQuestions r.question)
        (chooseFrom [] newsContexts r.status)
        (chooseFrom [] newsReactions r.excitement)
        (chooseFrom [] newsDetails r.figures)
    else if category = "match".data then
      matchTemplatesFilled title
        (chooseFrom [] newsDetails r.highlights)
        (chooseFrom [] newsReactions r.reaction)
        (chooseFrom [] newsContexts r.stats)
        (chooseFrom [] newsReactions r.celebration)
        extraContext
        (chooseFrom [] newsHooks r.shock)
        (chooseFrom [] newsDetails r.summaryIdx)
    else
      breakingTemplatesFilled title
        extraContext
        (chooseFrom [] newsHooks r.hook)
        (chooseFrom [] newsDetails r.detail)
        (chooseFrom [] newsReactions r.reaction)
        (chooseFrom [] newsContexts r.insight)
        (chooseFrom [] newsHooks r.commentary)
        (chooseFrom [] newsDetails r.opinion)
        (chooseFrom [] newsQuestions r.question)
        (chooseFrom [] newsContexts r.extra)
        (chooseFrom [] newsHooks r.drama)
        (chooseFrom [] newsDetails r.background)
  let tweet1 := chooseFrom [] filled r.tmpl
  let tweet2 := addSmartHashtags tweet1 title article.summary category
  let tweet3 :=
    if tweet2.length > 280 then shortenTweet title category r.short else tweet2
  enforce280 tweet3

/-! ## Renderer 3: HistoryToTweetConverter (`src/history_converter.py`)

The source file `history_converter.py` is stored with double-encoded
(mojibake) non-ASCII literals — e.g. the intended `ü` appears in the file
as the two code points U+221A U+00BA — so the strings below reproduce the
code points the Python interpreter actually sees, written with explicit
escapes. -/

/-- A historical event as produced by `HistoryFetcher.fetch_today_events`:
`type` is `event`/`birth`/`death`, `year` is the integer year from the API
(`none` models the `'Unknown'` default), `text` is the event description.
The `pages`/`date` fields feed only the external detail fetch and are not
part of the scoring, selection or rendering logic. -/
structure HEvent where
  etype : List Char
  year : Option Int
  text : List Char
deriving DecidableEq, Repr, Inhabited

/-- The rendered form of `event.get('year', 'Unknown')` as interpolated by
`str.format`. -/
def histYearText (year : Option Int) : List Char :=
  match year with
  | some y => (toString y).data
  | none => "Unknown".data

/-- `HistoryToTweetConverter.emoji_map` (lines 20-31), with the exact
(mojibake) code points of the source file written as explicit escapes
(several begin with the invisible private-use code point U+F8FF). -/
def emojiWar : List Char := "\u201A\u00F6\u00EE\u00D4\u220F\u00E8".data

def emojiDeath : List Char := "\uF8FF\u00FC\u00EF\u00D8\u00D4\u220F\u00E8".data

def emojiDisaster : List Char := "\u201A\u00F6\u2020\u00D4\u220F\u00E8".data

def emojiPolitics : List Char := "\uF8FF\u00FC\u00E8\u00F5\u00D4\u220F\u00E8".data

def emojiScience : List Char := "\uF8FF\u00FC\u00EE\u00A8".data

def emojiSpace : List Char := "\uF8FF\u00FC\u00F6\u00C4".data

def emojiRevolution : List Char := "\u201A\u00FA\u00E4".data

def emojiExplosion : List Char := "\uF8FF\u00FC\u00ED\u2022".data

def emojiDefault : List Char := "\uF8FF\u00FC\u00EC\u00D6".data

/-- `HistoryToTweetConverter._select_emoji` (lines 65-87): an if/elif chain
of keyword scans over the lowercased text, first matching branch wins. The
keyword lists reproduce the mojibake code points of the source file. -/
def selectEmoji (text : List Char) (_eventType : List Char) : List Char :=
  let tl := lowerStr text
  if (["sava\u2248\u00FC".data, "war".data, "battle".data, "\u221A\u00DFarp\u0192\u00B1\u2248\u00FCma".data, "muharebe".data] : List (List Char)).any
      (fun w => strContains tl w) then emojiWar
  else if (["\u221A\u2202ld\u221A\u00BA".data, "died".data, "death".data, "\u221A\u2202l\u221A\u00BAm".data, "\u221A\u2202ld\u221A\u00BAr\u221A\u00BAld\u221A\u00BA".data, "idam".data, "infaz".data] : List (List Char)).any
      (fun w => strContains tl w) then emojiDeath
  else if (["deprem".data, "yang\u0192\u00B1n".data, "patlama".data, "felaket".data, "katliam".data, "disaster".data] : List (List Char)).any
      (fun w => strContains tl w) then emojiDisaster
  else if (["devrim".data, "isyan".data, "ayaklanma".data, "darbe".data] : List (List Char)).any
      (fun w => strContains tl w) then emojiRevolution
  else if (["kral".data, "sultan".data, "padi\u2248\u00FCah".data, "imparator".data, "meclis".data, "ba\u2248\u00FCkan".data] : List (List Char)).any
      (fun w => strContains tl w) then emojiPolitics
  else if (["uzay".data, "space".data, "moon".data, "mars".data, "roket".data] : List (List Char)).any
      (fun w => strContains tl w) then emojiSpace
  else if (["ke\u2248\u00FCif".data, "bulu\u2248\u00FC".data, "discovery".data, "bilim".data] : List (List Char)).any
      (fun w => strContains tl w) then emojiScience
  else if (["patlama".data, "bomba".data, "explosion".data] : List (List Char)).any
      (fun w => strContains tl w) then emojiExplosion
  else emojiDefault

/-- The fixed template segment between the year and text placeholders in
the template at line 17: a space, the mojibake rendering of the Turkish
words, and two newlines — 20 code points. -/
def histTemplateMid : List Char :=
  " y\u0192\u00B1l\u0192\u00B1nda bug\u221A\u00BAn:\n\n".data

/-- The fixed hashtag suffix appended by `_add_fixed_hashtags`
(lines 89-94): two newlines plus the mojibake rendering of the two Turkish
hashtags — 23 code points, appended unconditionally. -/
def histHashtagSuffix : List Char :=
  "\n\n#TarihteBug\u221A\u00BAn #Tarih".data
/-- `HistoryToTweetConverter.convert_to_tweet` (lines 33-63): emoji, year
and text are substituted into the template, then the fixed hashtags are
appended. The `details` argument is unused in the source as well
("kept for compatibility"). NOTE: unlike the other two renderers, no
280-character enforcement of any kind is applied. -/
def historyConvertToTweet (e : HEvent) (_details : List Char) : List Char :=
  selectEmoji e.text e.etype ++ " ".data ++ histYearText e.year
    ++ histTemplateMid ++ e.text ++ histHashtagSuffix

set_option maxRecDepth 8000 in
/-- C2 counterexample: the historical-event renderer applies no truncation,
so a 250-character event text yields a 302-character tweet, exceeding 280.
(Event: year 1900, type `event`, text = 250 copies of `a`.) -/
theorem history_tweet_overflows_280 :
    (historyConvertToTweet ⟨"event".data, some 1900, List.replicate 250 'a'⟩ []).length = 302 ∧
    280 < (historyConvertToTweet ⟨"event".data, some 1900, List.replicate 250 'a'⟩ []).length := by
  refine ⟨by decide, by decide⟩

/-- C2 amended: the follow/unfollow renderer and the RSS news renderer
always produce at most 280 characters (both end with the hard truncation to
277 plus ellipsis); the historical-event renderer performs no length
enforcement — its output length is exactly the emoji length plus the year
length plus the text length plus 44 fixed characters, and therefore exceeds
280 whenever the event text is long enough. -/
theorem tweet_length_bounds :
    (∀ (c : Change) (dramaScore : Int) (tidx : Nat),
      (generate c dramaScore tidx).length ≤ 280) ∧
    (∀ (article : Article) (r : NewsRandom),
      (convertNewsToTweet article r).length ≤ 280) ∧
    (∀ (e : HEvent) (details : List Char),
      (historyConvertToTweet e details).length =
        (selectEmoji e.text e.etype).length + (histYearText e.year).length
          + e.text.length + 44) := by
  refine ⟨?_, ?_, ?_⟩
  · intro c dramaScore tidx
    unfold generate
    exact enforce280_le _
  · intro article r
    unfold convertNewsToTweet
    exact enforce280_le _
  · intro e details
    unfold historyConvertToTweet
    simp [List.length_append, histTemplateMid, histHashtagSuffix]
    omega

/-! ## DedupMemory (`src/history_fetcher.py`, `src/database.py`) -/

/-- `HistoryFetcher._get_event_id` (lines 162-164):
`f"{type}_{year}_{text[:50]}"`. -/
def eventId (e : HEvent) : List Char :=
  e.etype ++ "_".data ++ histYearText e.year ++ "_".data ++ e.text.take 50

/-- `HistoryFetcher.mark_as_posted` (lines 157-160): insertion into the
in-process Python set `posted_events`. -/
def markAsPosted (posted : Finset (List Char)) (e : HEvent) : Finset (List Char) :=
  insert (eventId e) posted

/-- A row of the `changes` table written by `Database.save_change`
(`src/database.py`, lines 90-127). Timestamps are embedded as integer time
values (the source stores ISO strings and compares them through SQLite
`datetime`, which is order-isomorphic). -/
structure ChangeRow where
  ctype : List Char
  athlete : List Char
  athleteHandle : List Char
  targetName : List Char
  targetHandle : List Char
  targetFollowers : Int
  dramaScore : Int
  timestamp : Int
deriving DecidableEq, Repr, Inhabited

/-- `Database.save_change`: a plain SQL `INSERT` appending one row; there
is no uniqueness constraint, so the insert never errors and recording the
same change twice stores two rows. -/
def saveChange (tbl : List ChangeRow) (row : ChangeRow) : List ChangeRow :=
  tbl ++ [row]

/-- `Database.check_duplicate` (lines 219-251): `COUNT(*) > 0` over rows
matching the structural key `(athlete_handle, target_handle, type)` with a
timestamp inside the last `hours` hours. -/
def checkDuplicate (tbl : List ChangeRow) (c : ChangeRow) (hours now : Int) : Bool :=
  decide (0 < (tbl.filter (fun r =>
    r.athleteHandle == c.athleteHandle && r.targetHandle == c.targetHandle
      && r.ctype == c.ctype && decide (now - hours < r.timestamp))).length)

/-- The `total_changes` statistic of `Database.get_stats` (lines 180-217):
`SELECT COUNT(*) FROM changes`. -/
def getStatsTotal (tbl : List ChangeRow) : Nat :=
  tbl.length

/-- C9 counterexample: `Database.save_change` is NOT an idempotent insert —
saving the same change twice stores two rows, and the reported statistics
(`get_stats` total) count that identity twice (2 after two calls versus 1
after one call). -/
theorem save_change_double_counts :
    getStatsTotal
      (saveChange (saveChange []
        ⟨"unfollow".data, "A".data, "@a".data, "B".data, "@b".data, 0, 0, 0⟩)
        ⟨"unfollow".data, "A".data, "@a".data, "B".data, "@b".data, 0, 0, 0⟩) = 2 ∧
    getStatsTotal
      (saveChange []
        ⟨"unfollow".data, "A".data, "@a".data, "B".data, "@b".data, 0, 0, 0⟩) = 1 := by
  refine ⟨rfl, rfl⟩

theorem filter_double_pos {α : Type} (p : α → Bool) (l : List α) (c : α) :
    decide (0 < (List.filter p ((l ++ [c]) ++ [c])).length) =
      decide (0 < (List.filter p (l ++ [c])).length) := by
  rw [decide_eq_decide]
  by_cases hp : p c = true <;> simp [List.filter_append, hp]

/-- C9 amended: `HistoryFetcher.mark_as_posted` is an idempotent set insert
and never errors, and a second `Database.save_change` of the same change
leaves every subsequent `check_duplicate` answer identical to a single
insert; but `save_change` is a plain append — each call adds one row, so a
repeated insert IS double-counted in the `get_stats` statistics. -/
theorem record_idempotence_amended :
    (∀ (posted : Finset (List Char)) (e : HEvent),
      markAsPosted (markAsPosted posted e) e = markAsPosted posted e) ∧
    (∀ (tbl : List ChangeRow) (cr q : ChangeRow) (hours now : Int),
      checkDuplicate (saveChange (saveChange tbl cr) cr) q hours now =
        checkDuplicate (saveChange tbl cr) q hours now) ∧
    (∀ (tbl : List ChangeRow) (cr : ChangeRow),
      getStatsTotal (saveChange tbl cr) = getStatsTotal tbl + 1) := by
  refine ⟨?_, ?_, ?_⟩
  · intro posted e
    exact Finset.insert_idem _ _
  · intro tbl cr q hours now
    unfold checkDuplicate saveChange
    exact filter_double_pos _ tbl cr
  · intro tbl cr
    simp [getStatsTotal, saveChange]

/-! ## Selector: HistoryFetcher.select_interesting_event
(`src/history_fetcher.py`, lines 166-232) -/

/-- `HistoryFetcher.priority_keywords` (lines 26-32). -/
def priorityKeywords : List (List Char) :=
  [ "savaş".data, "öldü".data, "öldürüldü".data, "suikast".data, "katliam".data,
    "devrim".data, "İmparator".data, "Kral".data, "Sultan".data, "mitoloji".data,
    "tanrı".data, "efsane".data, "felaket".data, "deprem".data, "yangın".data,
    "patlama".data, "çöküş".data, "yıkım".data, "infaz".data, "idam".data,
    "isyan".data, "darbe".data, "istila".data, "kuşatma".data, "Napoleon".data,
    "Hitler".data, "Stalin".data, "Atatürk".data, "Fatih".data, "Kanuni".data ]

/-- The keyword term of the event score (lines 186-188): `+10` for every
priority keyword with `keyword.lower() in text`, where `textLower` is the
already-lowercased event text. -/
def keywordScore (textLower : List Char) : Int :=
  priorityKeywords.foldl
    (fun s kw => if strContains textLower (lowerStr kw) then s + 10 else s) 0

/-- The event-kind term (lines 190-194): `death +15`, `event +5`, else 0. -/
def kindBonus (etype : List Char) : Int :=
  if etype = "death".data then 15
  else if etype = "event".data then 5
  else 0

/-- The era term (lines 196-208): an if/elif chain evaluated in the order
given, first match wins; `int(year)` failing (year `'Unknown'`) yields no
bonus via the `except: pass`. -/
def eraBonus (year : Option Int) : Int :=
  match year with
  | none => 0
  | some y =>
    if 1914 ≤ y ∧ y ≤ 1945 then 20
    else if y < 500 then 15
    else if 500 ≤ y ∧ y ≤ 1500 then 10
    else if 1900 ≤ y ∧ y ≤ 2000 then 8
    else 0

/-- The importance score of one historical event (lines 182-208). -/
def scoreEvent (e : HEvent) : Int :=
  keywordScore (lowerStr e.text) + kindBonus e.etype + eraBonus e.year

/-- The `scored_events` list of `(score, event)` pairs in input order
(lines 176-210). -/
def scoredEvents (es : List HEvent) : List (Int × HEvent) :=
  es.map (fun e => (scoreEvent e, e))

/-- One step of the stable descending sort by score:
`x` is placed before the first element whose score is ≤ its own, so earlier
input elements with an equal score stay in front. -/
def insertDesc {α : Type} (x : Int × α) : List (Int × α) → List (Int × α)
  | [] => [x]
  | y :: ys => if x.1 < y.1 then y :: insertDesc x ys else x :: y :: ys

/-- Embedding of `scored_events.sort(reverse=True, key=lambda x: x[0])`
(line 213): Python's sort is stable also with `reverse=True`, i.e. it sorts
by score descending and preserves the input order of equal-score
elements. -/
def sortDesc {α : Type} : List (Int × α) → List (Int × α)
  | [] => []
  | x :: xs => insertDesc x (sortDesc xs)

/-- `HistoryFetcher.select_interesting_event` (lines 166-232): score every
event, sort by score descending (stably), take the top 15, and pick one
uniformly at random from that slice (`random.choice`, made explicit through
the index `r`). Returns `none` for an empty input; the trailing
`random.choice(events)` of the source is unreachable because `top_15` is
non-empty whenever `events` is. The external detail fetch
(`get_event_details`) only decorates the selected event and is outside the
selection logic. -/
def selectInterestingEvent (es : List HEvent) (r : Nat) : Option HEvent :=
  if es.isEmpty then none
  else
    let top := (sortDesc (scoredEvents es)).take 15
    some (chooseFrom (0, default) top r).2

theorem insertDesc_perm {α : Type} (x : Int × α) :
    ∀ l : List (Int × α), (insertDesc x l).Perm (x :: l) := by
  intro l
  induction l with
  | nil => exact List.Perm.refl _
  | cons y ys ih =>
    unfold insertDesc
    split_ifs with h
    · exact ((ih.cons y).trans (List.Perm.swap x y ys))
    · exact List.Perm.refl _

theorem sortDesc_perm {α : Type} :
    ∀ l : List (Int × α), (sortDesc l).Perm l := by
  intro l
  induction l with
  | nil => exact List.Perm.refl _
  | cons x xs ih =>
    exact (insertDesc_perm x (sortDesc xs)).trans (ih.cons x)

theorem insertDesc_sorted {α : Type} (x : Int × α) (l : List (Int × α))
    (h : List.Pairwise (fun a b : Int × α => b.1 ≤ a.1) l) :
    List.Pairwise (fun a b : Int × α => b.1 ≤ a.1) (insertDesc x l) := by
  induction l with
  | nil => simp [insertDesc]
  | cons y ys ih =>
    unfold insertDesc
    rcases List.pairwise_cons.mp h with ⟨hy, hys⟩
    split_ifs with hlt
    · refine List.pairwise_cons.mpr ⟨?_, ih hys⟩
      intro z hz
      rcases List.mem_cons.mp ((insertDesc_perm x ys).mem_iff.mp hz) with hzx | hzys
      · subst hzx
        exact le_of_lt hlt
      · exact hy z hzys
    · refine List.pairwise_cons.mpr ⟨?_, h⟩
      intro z hz
      rcases List.mem_cons.mp hz with hzy | hzys
      · subst hzy
        exact not_lt.mp hlt
      · exact le_trans (hy z hzys) (not_lt.mp hlt)

theorem sortDesc_sorted {α : Type} :
    ∀ l : List (Int × α),
      List.Pairwise (fun a b : Int × α => b.1 ≤ a.1) (sortDesc l) := by
  intro l
  induction l with
  | nil => simp [sortDesc]
  | cons x xs ih => exact insertDesc_sorted x (sortDesc xs) ih

theorem insertDesc_filter_eq {α : Type} (c : Int) (x : Int × α)
    (l : List (Int × α)) :
    (insertDesc x l).filter (fun p => p.1 == c) =
      (if x.1 == c then [x] else []) ++ l.filter (fun p => p.1 == c) := by
  induction l with
  | nil => by_cases hx : x.1 = c <;> simp [insertDesc, hx]
  | cons y ys ih =>
    by_cases hlt : x.1 < y.1
    · have hstep : insertDesc x (y :: ys) = y :: insertDesc x ys := by
        simp [insertDesc, hlt]
      rw [hstep]
      by_cases hxc : x.1 = c
      · have hyc : ¬ y.1 = c := by
          intro hy
          rw [hxc, hy] at hlt
          exact lt_irrefl c hlt
        simp [List.filter_cons, hxc, hyc, ih]
      · by_cases hyc : y.1 = c <;> simp [List.filter_cons, hxc, hyc, ih]
    · have hstep : insertDesc x (y :: ys) = x :: y :: ys := by
        simp [insertDesc, hlt]
      rw [hstep]
      by_cases hxc : x.1 = c <;> simp [List.filter_cons, hxc]

theorem sortDesc_filter_eq {α : Type} (c : Int) :
    ∀ l : List (Int × α),
      (sortDesc l).filter (fun p => p.1 == c) = l.filter (fun p => p.1 == c) := by
  intro l
  induction l with
  | nil => rfl
  | cons x xs ih =>
    show (insertDesc x (sortDesc xs)).filter (fun p => p.1 == c) = _
    rw [insertDesc_filter_eq, ih]
    by_cases hx : (x.1 == c) = true <;> simp [List.filter_cons, hx]

theorem getD_mem_of_ne_nil {α : Type} (l : List α) (d : α) (r : Nat)
    (h : l ≠ []) : l.getD (r % l.length) d ∈ l := by
  have hlen : r % l.length < l.length :=
    Nat.mod_lt _ (List.length_pos.mpr h)
  rw [List.getD_eq_getElem l d hlen]
  exact List.getElem_mem hlen

/-- C6: for every non-empty event list, selection sorts the scored events
by score descending (the sorted list is a permutation of the scored input,
pairwise non-increasing in score, and stable: filtering any fixed score
value yields exactly the input-order sublist, so the sort introduces no
secondary key); the returned event is drawn from the top-15 slice of that
order, and every event of the slice is returned for some value of the
random index — randomness is the only tie-break. -/
theorem select_event_ranked_random (es : List HEvent) (r : Nat) (hne : es ≠ []) :
    (sortDesc (scoredEvents es)).Perm (scoredEvents es) ∧
    List.Pairwise (fun a b : Int × HEvent => b.1 ≤ a.1) (sortDesc (scoredEvents es)) ∧
    (∀ c : Int, (sortDesc (scoredEvents es)).filter (fun p => p.1 == c) =
      (scoredEvents es).filter (fun p => p.1 == c)) ∧
    (∃ p ∈ (sortDesc (scoredEvents es)).take 15,
      selectInterestingEvent es r = some p.2) ∧
    (∀ p ∈ (sortDesc (scoredEvents es)).take 15,
      ∃ r2 : Nat, selectInterestingEvent es r2 = some p.2) := by
  have hse : scoredEvents es ≠ [] := by
    simp [scoredEvents, hne]
  have hsort : sortDesc (scoredEvents es) ≠ [] := by
    intro hnil
    have hp := sortDesc_perm (scoredEvents es)
    rw [hnil] at hp
    exact hse hp.symm.eq_nil
  have htop : (sortDesc (scoredEvents es)).take 15 ≠ [] := by
    intro hnil
    rcases List.take_eq_nil_iff.mp hnil with h15 | hs
    · omega
    · exact hsort hs
  have hesne : es.isEmpty = false := by
    simp [hne]
  refine ⟨sortDesc_perm _, sortDesc_sorted _, fun c => sortDesc_filter_eq c _, ?_, ?_⟩
  · refine ⟨chooseFrom (0, default) ((sortDesc (scoredEvents es)).take 15) r, ?_, ?_⟩
    · exact getD_mem_of_ne_nil _ _ _ htop
    · simp [selectInterestingEvent, hesne]
  · intro p hp
    rcases List.mem_iff_getElem.mp hp with ⟨i, hi, hpi⟩
    refine ⟨i, ?_⟩
    have hmod : i % ((sortDesc (scoredEvents es)).take 15).length = i :=
      Nat.mod_eq_of_lt hi
    simp only [selectInterestingEvent, hesne, Bool.false_eq_true, if_false]
    rw [chooseFrom, hmod, List.getD_eq_getElem _ _ hi, hpi]

theorem select_event_ranked_random_witness :
    (sortDesc (scoredEvents [⟨"event".data, some 1900, "a".data⟩])).Perm
      (scoredEvents [⟨"event".data, some 1900, "a".data⟩]) :=
  (select_event_ranked_random [⟨"event".data, some 1900, "a".data⟩] 0
    (by decide)).1

theorem keywordScore_foldl_mono (tl : List Char) :
    ∀ (l : List (List Char)) (s : Int),
      s ≤ l.foldl
        (fun acc kw => if strContains tl (lowerStr kw) then acc + 10 else acc) s := by
  intro l
  induction l with
  | nil => intro s; exact le_refl s
  | cons k rest ih =>
    intro s
    refine le_trans ?_ (ih _)
    dsimp only
    split_ifs <;> omega

/-- C7: the era-range table is evaluated in order with first match
winning, so any year in `[1914, 1945]` — in particular 1944 — receives era
bonus 20 and not the 8 of the overlapping 1900-2000 range; and an event of
year 1944 whose text contains the war keyword and the death keyword of the
priority list scores at least 40 from keywords and era alone, before the
event-kind bonus. -/
theorem era_first_match_and_min_score :
    (∀ y : Int, 1914 ≤ y → y ≤ 1945 → eraBonus (some y) = 20) ∧
    eraBonus (some 1944) = 20 ∧ ¬ eraBonus (some 1944) = 8 ∧
    (∀ e : HEvent, e.year = some 1944 →
      strContains (lowerStr e.text) (lowerStr "savaş".data) = true →
      strContains (lowerStr e.text) (lowerStr "öldü".data) = true →
      40 ≤ keywordScore (lowerStr e.text) + eraBonus e.year) := by
  refine ⟨?_, by norm_num [eraBonus], by norm_num [eraBonus], ?_⟩
  · intro y h1 h2
    simp [eraBonus, h1, h2]
  · intro e hy h1 h2
    have hera : eraBonus e.year = 20 := by
      rw [hy]
      norm_num [eraBonus]
    have hkw : 20 ≤ keywordScore (lowerStr e.text) := by
      unfold keywordScore priorityKeywords
      rw [List.foldl_cons, List.foldl_cons, h1, h2]
      simp only [if_true]
      exact keywordScore_foldl_mono _ _ 20
    omega

theorem era_first_match_and_min_score_witness :
    40 ≤ keywordScore (lowerStr ("savaş öldü".data))
          + eraBonus (some 1944) :=
  era_first_match_and_min_score.2.2.2
    ⟨"event".data, some 1944, "savaş öldü".data⟩ rfl (by decide) (by decide)

/-! ## Pipeline drivers and PublishGate
(`src/main.py`, `src/main_history.py`, `src/main_rss.py`)

The externally observable pipeline steps of one pass are modelled as an
action trace: `checkDup` (filtering already-posted identities while
fetching / querying the store), `publish success` (the `post_tweet` call
with its boolean outcome), and `record` (writing a dedup/publish record:
`db.save_change`, `mark_as_posted`, or the `INSERT INTO tweets`). -/

inductive Action where
  | checkDup : Action
  | publish : Bool → Action
  | record : Action
deriving DecidableEq, Repr

/-- Per-change body of `FootballGossipBot.check_and_tweet`
(`src/main.py`, lines 78-102): the change is saved to the database
(`db.save_change`, a `record`) unconditionally FIRST; only then, if the
drama score reaches `MIN_DRAMA_SCORE` and `AUTO_TWEET` is on, the tweet is
generated and posted. No duplicate check is performed in this pipeline. -/
def mainChangeTrace (dramaScore minScore : Int) (autoTweet pubSuccess : Bool) :
    List Action :=
  [Action.record] ++
    (if dramaScore ≥ minScore then
      (if autoTweet then [Action.publish pubSuccess] else [])
    else [])

/-- Daily publish-budget state of `HistoryBot` / `FootballNewsBot`:
`daily_tweet_count` and `last_reset` (the local calendar date, encoded as a
number). -/
structure DayState where
  count : Nat
  lastReset : Nat
deriving DecidableEq, Repr

/-- The daily-counter reset at the top of `post_history_tweet` /
`post_news_tweet`: `if today != self.last_reset: count = 0; last_reset = today`. -/
def resetIfNewDay (today : Nat) (s : DayState) : DayState :=
  if today ≠ s.lastReset then { count := 0, lastReset := today } else s

/-- `HistoryBot.post_history_tweet` (`src/main_history.py`, lines 92-173)
as a state transition plus action trace.  Order of the source: reset daily
counter on date change; return if outside peak hours; return if the daily
limit is reached (the candidate is discarded, nothing is queued); fetch
events (which filters out already-posted identities — the duplicate
check); return if none; select, convert; if `AUTO_TWEET`, post, and only
on success `mark_as_posted` plus `INSERT INTO tweets` (two records) and
increment the counter; in demo mode the counter is incremented without
posting. -/
def postHistoryTweet (max today : Nat) (peak hasEvents autoTweet pubSuccess : Bool)
    (s : DayState) : DayState × List Action :=
  let s1 := resetIfNewDay today s
  if peak = false then (s1, [])
  else if max ≤ s1.count then (s1, [])
  else if hasEvents = false then (s1, [Action.checkDup])
  else if autoTweet = false then
    ({ s1 with count := s1.count + 1 }, [Action.checkDup])
  else if pubSuccess then
    ({ s1 with count := s1.count + 1 },
      [Action.checkDup, Action.publish true, Action.record, Action.record])
  else (s1, [Action.checkDup, Action.publish false])

/-- `FootballNewsBot.post_news_tweet` (`src/main_rss.py`, lines 67-125):
identical to the history variant but with no peak-hour gate; the RSS fetch
filters out already-posted article ids, and on success `mark_as_posted`
plus the tweets-table insert run only after the publish returned true. -/
def postNewsTweet (max today : Nat) (hasArticles autoTweet pubSuccess : Bool)
    (s : DayState) : DayState × List Action :=
  let s1 := resetIfNewDay today s
  if max ≤ s1.count then (s1, [])
  else if hasArticles = false then (s1, [Action.checkDup])
  else if autoTweet = false then
    ({ s1 with count := s1.count + 1 }, [Action.checkDup])
  else if pubSuccess then
    ({ s1 with count := s1.count + 1 },
      [Action.checkDup, Action.publish true, Action.record, Action.record])
  else (s1, [Action.checkDup, Action.publish false])

/-- `noEarlyRecord ok t = true` iff every `record` in `t` comes strictly
after a publish action whose outcome was success (the flag tracks the
outcome of the most recent publish; `ok` is its initial value). -/
def noEarlyRecord : Bool → List Action → Bool
  | _, [] => true
  | ok, Action.record :: t => ok && noEarlyRecord ok t
  | _, Action.publish s :: t => noEarlyRecord s t
  | ok, Action.checkDup :: t => noEarlyRecord ok t

/-- `publishAfterCheck seen t = true` iff every publish in `t` is preceded
by a duplicate check. -/
def publishAfterCheck : Bool → List Action → Bool
  | _, [] => true
  | _, Action.checkDup :: t => publishAfterCheck true t
  | seen, Action.publish _ :: t => seen && publishAfterCheck seen t
  | seen, Action.record :: t => publishAfterCheck seen t

/-- C3 counterexample: in the follow-tracking variant
(`FootballGossipBot.check_and_tweet`) the change record is written to the
database BEFORE the publish call: for a change with drama score 100,
threshold 30, auto-tweet on and a successful publish, the trace is
`[record, publish]`, so a record is inserted before a confirmed publish. -/
theorem main_records_before_publish :
    mainChangeTrace 100 30 true true = [Action.record, Action.publish true] ∧
    noEarlyRecord false (mainChangeTrace 100 30 true true) = false := by
  refine ⟨by decide, by decide⟩

/-- C3 amended: in the history and RSS variants every pipeline pass follows
check-duplicate, then publish, then record — a record is inserted only
after a publish that returned success.  In the follow-tracking variant
(`main.py`), however, the change record is always written first, before any
publish attempt, and no duplicate check occurs in the pass. -/
theorem record_after_publish_variants :
    (∀ (max today : Nat) (peak hasEvents autoTweet pubSuccess : Bool) (s : DayState),
      noEarlyRecord false (postHistoryTweet max today peak hasEvents autoTweet pubSuccess s).2 = true ∧
      publishAfterCheck false (postHistoryTweet max today peak hasEvents autoTweet pubSuccess s).2 = true) ∧
    (∀ (max today : Nat) (hasArticles autoTweet pubSuccess : Bool) (s : DayState),
      noEarlyRecord false (postNewsTweet max today hasArticles autoTweet pubSuccess s).2 = true ∧
      publishAfterCheck false (postNewsTweet max today hasArticles autoTweet pubSuccess s).2 = true) ∧
    (∀ (dramaScore minScore : Int) (autoTweet pubSuccess : Bool),
      (mainChangeTrace dramaScore minScore autoTweet pubSuccess).head? = some Action.record) := by
  refine ⟨?_, ?_, ?_⟩
  · intro max today peak hasEvents autoTweet pubSuccess s
    simp only [postHistoryTweet, resetIfNewDay]
    split_ifs <;> exact ⟨rfl, rfl⟩
  · intro max today hasArticles autoTweet pubSuccess s
    simp only [postNewsTweet, resetIfNewDay]
    split_ifs <;> exact ⟨rfl, rfl⟩
  · intro dramaScore minScore autoTweet pubSuccess
    unfold mainChangeTrace
    rfl

/-- C8: the daily publish budget is an invariant of every tick of the
history and RSS variants: the counter stays at most the per-day maximum;
once the counter has reached the maximum (and the date has not changed) the
pass does nothing — no publish, no record, no queueing, state unchanged;
and when the local date advances the pass behaves exactly as if it started
from a fresh state with count 0 for the new date (the reset happens once,
after which the stored date equals today so no further reset occurs). -/
theorem daily_budget_invariant
    (max today : Nat) (peak hasEvents autoTweet pubSuccess : Bool) (s : DayState) :
    (s.count ≤ max →
      (postHistoryTweet max today peak hasEvents autoTweet pubSuccess s).1.count ≤ max) ∧
    (today = s.lastReset → max ≤ s.count →
      postHistoryTweet max today peak hasEvents autoTweet pubSuccess s = (s, [])) ∧
    (today ≠ s.lastReset →
      postHistoryTweet max today peak hasEvents autoTweet pubSuccess s =
        postHistoryTweet max today peak hasEvents autoTweet pubSuccess ⟨0, today⟩) ∧
    ((postHistoryTweet max today peak hasEvents autoTweet pubSuccess s).1.lastReset = today ∨
      (postHistoryTweet max today peak hasEvents autoTweet pubSuccess s).1.lastReset = s.lastReset) ∧
    (s.count ≤ max →
      (postNewsTweet max today hasEvents autoTweet pubSuccess s).1.count ≤ max) ∧
    (today = s.lastReset → max ≤ s.count →
      postNewsTweet max today hasEvents autoTweet pubSuccess s = (s, [])) := by
  refine ⟨?_, ?_, ?_, ?_, ?_, ?_⟩
  · intro h
    simp only [postHistoryTweet, resetIfNewDay]
    split_ifs <;> simp_all <;> omega
  · intro hd h
    simp only [postHistoryTweet, resetIfNewDay]
    split_ifs <;> simp_all
  · intro hd
    simp only [postHistoryTweet, resetIfNewDay]
    simp [hd]
  · simp only [postHistoryTweet, resetIfNewDay]
    split_ifs <;> simp_all
  · intro h
    simp only [postNewsTweet, resetIfNewDay]
    split_ifs <;> simp_all <;> omega
  · intro hd h
    simp only [postNewsTweet, resetIfNewDay]
    split_ifs <;> simp_all

theorem daily_budget_invariant_witness :
    (postHistoryTweet 15 7 true true true true ⟨3, 7⟩).1.count ≤ 15 ∧
    postHistoryTweet 15 7 true true true true ⟨15, 7⟩ = (⟨15, 7⟩, []) ∧
    postHistoryTweet 15 8 true true true true ⟨15, 7⟩ =
      postHistoryTweet 15 8 true true true true ⟨0, 8⟩ ∧
    postNewsTweet 15 7 true true true ⟨15, 7⟩ = (⟨15, 7⟩, []) :=
  ⟨(daily_budget_invariant 15 7 true true true true ⟨3, 7⟩).1 (by norm_num),
   (daily_budget_invariant 15 7 true true true true ⟨15, 7⟩).2.1 rfl (by norm_num),
   (daily_budget_invariant 15 8 true true true true ⟨15, 7⟩).2.2.1 (by norm_num),
   (daily_budget_invariant 15 7 true true true true ⟨15, 7⟩).2.2.2.2.2 rfl (by norm_num)⟩

end FootballGossip
